import Mathlib

/-!
Verification of the OMOPerations mapping-and-load engine (MEPRAM ETL).

This file gives a shallow embedding of the parts of
`src/scripts/DatabaseHandler.py` and `src/scripts/MepramETL.py` needed to
settle the frozen claims: the identity registry
(`populate_person_origin_table`), the processing tracker and the main batch
loop, the relationship builder (`populate_fact_relationship_table`), the
concept-ancestry test (`has_desired_ancestor`), the drug-code translation
(`get_rxnorm_from_atc`) and its treatment-form callers, the vital-signs
threshold derivation, the sepsis "foco" fallback, and the prior-infection
organism default.

Database tables are modelled as in-memory lists; queries executed through
`execute_query` are modelled as pure reads/appends on those lists.  External
collaborators (the rosetta concept table, the SNOMED lookup, the success of a
record's transformation) are abstracted as function parameters or oracle
fields, as the spec declares them out of scope.
-/

namespace OMOPerations

/-! ### Identity Registry (`DatabaseHandler.populate_person_origin_table`)

The `management.person_origin` table is modelled as a list of
`(source_person_id, person_id)` rows, in insertion order. -/

/-- Model of `is_person_in_db` (DatabaseHandler.py:52-66): `SELECT * FROM
management.person_origin WHERE source_person_id = :v`; truthy iff some row
matches. -/
def is_person_in_db (reg : List (String × Nat)) (src : String) : Bool :=
  reg.any (fun p => p.1 = src)

/-- The `SELECT person_id FROM management.person_origin WHERE
source_person_id = :v` read (DatabaseHandler.py:136-143): `fetchone` returns
the first matching row.  The `0` default is unreachable in the guarded
branch. -/
def getPersonId (reg : List (String × Nat)) (src : String) : Nat :=
  match reg.find? (fun p => p.1 = src) with
  | some p => p.2
  | none => 0

/-- The `SELECT MAX(person_id) FROM management.person_origin` read
(DatabaseHandler.py:149-152): `none` models SQL NULL on an empty table. -/
def maxPersonId (reg : List (String × Nat)) : Option Nat :=
  if reg.isEmpty then none else some (reg.foldl (fun m p => Nat.max m p.2) 0)

/-- Model of `populate_person_origin_table` (DatabaseHandler.py:126-178).  Returns the
updated table together with the person id the method returns.  The branch on
`maxPersonId` models Python truthiness of `max_person_id` (`None` and `0` are
falsy). -/
def populate_person_origin_table (reg : List (String × Nat)) (src : String) :
    List (String × Nat) × Nat :=
  if is_person_in_db reg src then
    (reg, getPersonId reg src)
  else
    match maxPersonId reg with
    | some m =>
      if m ≠ 0 then (reg ++ [(src, m + 1)], m + 1)
      else (reg ++ [(src, 1)], 1)
    | none => (reg ++ [(src, 1)], 1)

/-- Running the identity registry over a batch of source subject ids,
starting from a given table state. -/
def runRegistry (reg : List (String × Nat)) (srcs : List String) :
    List (String × Nat) :=
  srcs.foldl (fun r s => (populate_person_origin_table r s).1) reg

/-- The distinct source ids of a batch in first-seen order (specification
vocabulary for stating the claim; not a source function). -/
def firstSeen (acc : List String) (srcs : List String) : List String :=
  srcs.foldl (fun a s => if s ∈ a then a else a ++ [s]) acc

/-- Index of the first occurrence of `src` (specification vocabulary). -/
def firstIndex (src : String) : List String → Nat
  | [] => 0
  | a :: t => if a = src then 0 else firstIndex src t + 1

/-! ### Processing Tracker and the main batch loop (`MepramETL.main`,
`DatabaseHandler.is_form_processed` / `update_form_tracking`)

The inner loop of `main` (MepramETL.py:2012-2060) runs over one form's
records.  The tracking table, restricted to the current form, is the list of
subjects having a row.  A row's values are abstracted to two oracle fields:
`isEmpty` (the skip condition of MepramETL.py:2016-2029, which depends on the
record's data values) and `loadOk` (whether `OMOP_loader.load_data` on this
row returns normally; its success depends on external rosetta/database state
not modelled here). -/

/-- One record (row) of a form's export, with the two data-dependent oracles
described above. -/
structure SRow where
  record_id : String
  isEmpty : Bool
  loadOk : Bool
deriving DecidableEq, Repr

/-- State threaded by the inner loop of `main`: the tracking table (subjects
with a `management.ETL_tracking` row for this form), `current_record_id`,
the `processed` flag, and observation lists: subjects for which `load_data`
was invoked, subjects written to the tracking table during this run
(`update_form_tracking` calls), and subjects whose row raised (logged
errors), each in order of occurrence. -/
structure LoopState where
  tracking : List String
  current : Option String
  processed : Bool
  invoked : List String
  written : List String
  errors : List String
deriving DecidableEq, Repr

/-- Model of `update_form_tracking` (DatabaseHandler.py:110-124): INSERT a tracking
row for `(c, form_name)`. -/
def writeTracking (st : LoopState) (c : String) : LoopState :=
  { st with tracking := st.tracking ++ [c], written := st.written ++ [c] }

/-- The record-change block of `main` (MepramETL.py:2035-2042): on a new
`record_id`, flush the pending tracking row of the previous record if it was
processed, then reset `current_record_id` and `processed`. -/
def recordTransition (st : LoopState) (rid : String) : LoopState :=
  match st.current with
  | none => { st with current := some rid, processed := false }
  | some c =>
    if c = rid then st
    else
      let st1 := if st.processed then writeTracking st c else st
      { st1 with current := some rid, processed := false }

/-- The `is_form_processed` check plus the `load_data` call with its
`try`/`except` (MepramETL.py:2044-2055).  `is_form_processed`
(DatabaseHandler.py:91-108) is `COUNT(1) > 0` on the tracking table.  On an
exception the error is logged and the loop state otherwise keeps the values
set so far. -/
def attemptLoad (st : LoopState) (r : SRow) : LoopState :=
  if r.record_id ∈ st.tracking then st
  else
    let st1 := { st with invoked := st.invoked ++ [r.record_id] }
    if r.loadOk then { st1 with processed := true }
    else { st1 with errors := st1.errors ++ [r.record_id] }

/-- One iteration of the inner loop of `main` for one row: the emptiness
skip (MepramETL.py:2027-2033) happens before the `try` block. -/
def stepRow (st : LoopState) (r : SRow) : LoopState :=
  if r.isEmpty then st else attemptLoad (recordTransition st r.record_id) r

/-- The post-loop flush of the last record's tracking row
(MepramETL.py:2057-2060). -/
def finalizeRun (st : LoopState) : LoopState :=
  match st.current with
  | none => st
  | some c => if st.processed then writeTracking st c else st

/-- Loop state at the start of a form's batch: `current_record_id = None`,
`processed = False` (MepramETL.py:2012-2013), tracking table as left by
earlier runs. -/
def initState (t0 : List String) : LoopState :=
  ⟨t0, none, false, [], [], []⟩

/-- The whole inner loop of `main` over one form's rows. -/
def runFormBatch (t0 : List String) (rows : List SRow) : LoopState :=
  finalizeRun (rows.foldl stepRow (initState t0))

/-! ### Relationship Builder (`DatabaseHandler.populate_fact_relationship_table`) -/

/-- Domain concepts selected by the `SELECT concept_id FROM cdm.concept WHERE
concept_name = ... AND vocabulary_id = 'Domain'` subqueries. -/
inductive Domain where
  | Condition
  | Drug
  | Observation
deriving DecidableEq, Repr

/-- Relationship concepts selected by name in the INSERT statements of
`populate_fact_relationship_table` (DatabaseHandler.py:281-427). -/
inductive RelConcept where
  | TreatedWith
  | Treats
  | HasCausativeAgent
  | CausativeAgentOf
deriving DecidableEq, Repr

/-- The semantic inverse of each relationship concept (SNOMED pairs
Treated with / Treats and Has causative agent / Causative agent of). -/
def inverseRel : RelConcept → RelConcept
  | .TreatedWith => .Treats
  | .Treats => .TreatedWith
  | .HasCausativeAgent => .CausativeAgentOf
  | .CausativeAgentOf => .HasCausativeAgent

/-- One `cdm.fact_relationship` row.  Fact ids are `Option Nat` because the
Python call sites may pass `None` (a NULL id) through. -/
structure FactRel where
  domain_concept_id_1 : Domain
  fact_id_1 : Option Nat
  domain_concept_id_2 : Domain
  fact_id_2 : Option Nat
  relationship_concept_id : RelConcept
deriving DecidableEq, Repr

/-- The mirrored row of a fact_relationship row: swapped endpoints with the
inverse relationship concept (specification vocabulary for the claim). -/
def mirrorRel (r : FactRel) : FactRel :=
  ⟨r.domain_concept_id_2, r.fact_id_2, r.domain_concept_id_1, r.fact_id_1,
    inverseRel r.relationship_concept_id⟩

/-- The three `relationship_type` strings accepted by
`populate_fact_relationship_table`. -/
inductive RelationshipType where
  | infectious_disease_episode
  | previous_infection
  | previous_colonization
deriving DecidableEq, Repr

/-- Model of `populate_fact_relationship_table` (DatabaseHandler.py:281-427): the
list of fact_relationship rows it inserts, in insertion order.  For
`infectious_disease_episode` the per-patient `condition_id` / `drug_id`
lookups (DatabaseHandler.py:334-342) are abstracted as the input list
`valid_patient_facts`, one pair per valid patient; for the other two kinds
the ids come from the `previous_condition` / `previous_organism`
arguments. -/
def populate_fact_relationship_table (relationship_type : RelationshipType)
    (valid_patient_facts : List (Option Nat × Option Nat))
    (previous_condition previous_organism : Option Nat) : List FactRel :=
  match relationship_type with
  | .infectious_disease_episode =>
    valid_patient_facts.flatMap (fun cd =>
      [⟨.Condition, cd.1, .Drug, cd.2, .TreatedWith⟩,
       ⟨.Drug, cd.2, .Condition, cd.1, .Treats⟩])
  | .previous_infection =>
    [⟨.Condition, previous_condition, .Observation, previous_organism,
       .HasCausativeAgent⟩,
     ⟨.Observation, previous_organism, .Condition, previous_condition,
       .CausativeAgentOf⟩]
  | .previous_colonization =>
    [⟨.Observation, previous_condition, .Observation, previous_organism,
       .HasCausativeAgent⟩,
     ⟨.Observation, previous_organism, .Observation, previous_condition,
       .CausativeAgentOf⟩]

/-- A list of fact_relationship rows that is a concatenation of
forward/mirror pairs (specification vocabulary for the claim). -/
def isMirroredPairList : List FactRel → Bool
  | [] => true
  | [_] => false
  | r1 :: r2 :: rest => r2 = mirrorRel r1 && isMirroredPairList rest

/-! ### Concept-ancestry test (`DatabaseHandler.has_desired_ancestor`)

The `cdm.concept_ancestor` adjacency table is a list of
`(descendant_concept_id, ancestor_concept_id)` rows. -/

/-- Ancestors directly related to `d` in the adjacency table. -/
def directAncestors (ca : List (Nat × Nat)) (d : Nat) : List Nat :=
  (ca.filter (fun p => p.1 = d)).map (fun p => p.2)

/-- The `ancestor_concept_id` column of the recursive CTE `AncestorSearch`
(DatabaseHandler.py:439-461): rows at depths 1 through 4, starting from the
hard-coded descendant 4302157 (the WHERE clause uses the literal, not the
method's parameter). -/
def ancestorSearchRows (ca : List (Nat × Nat)) : List Nat :=
  let l1 := directAncestors ca 4302157
  let l2 := l1.flatMap (directAncestors ca)
  let l3 := l2.flatMap (directAncestors ca)
  let l4 := l3.flatMap (directAncestors ca)
  l1 ++ l2 ++ l3 ++ l4

/-- The string produced by the query's final CASE expression
(DatabaseHandler.py:462-470): compares against the hard-coded ancestor
4214811. -/
def ancestorQueryResult (ca : List (Nat × Nat)) : String :=
  if 4214811 ∈ ancestorSearchRows ca then "Yes" else "No"

/-- Model of `has_desired_ancestor` (DatabaseHandler.py:428-479).  The
`desc_concept_id` / `ancestor_concept_id` parameters are bound into the
params dict but the SQL text has no placeholders for them; the Python return
is `True if result == "True" else False`. -/
def has_desired_ancestor (ca : List (Nat × Nat))
    (desc_concept_id ancestor_concept_id : Nat) : Bool :=
  ancestorQueryResult ca = "True"

/-- Modelled from the spec: the documented contract of the ancestor test
(spec section 4.2, `has_ancestor`): a breadth-first walk up the
concept-ancestor adjacency relation from `desc_concept_id`, bounded to depth
4, true iff `ancestor_concept_id` is reached.  Used to state what the code
was intended to compute. -/
def reachableWithinDepth4 (ca : List (Nat × Nat))
    (desc_concept_id ancestor_concept_id : Nat) : Bool :=
  let l1 := directAncestors ca desc_concept_id
  let l2 := l1.flatMap (directAncestors ca)
  let l3 := l2.flatMap (directAncestors ca)
  let l4 := l3.flatMap (directAncestors ca)
  ancestor_concept_id ∈ l1 ++ l2 ++ l3 ++ l4

/-- The resistance-phenotype concept choice of `process_form_hemocultivo`
(MepramETL.py:1642-1657): for checkbox value "1" the ancestor test selects
the carbapenem-resistance concept "3009403", otherwise the rosetta lookup
`get_concept_id("fenotipo_resistencia", "semantic_link", v)` is used.  The
rosetta table is abstracted as the lookup function `rosetta`. -/
def hemocultivoFenoConceptId (ca : List (Nat × Nat)) (moo_concept_id : Nat)
    (rosetta : String → String → String → String)
    (feno_resist_value : String) : String :=
  if feno_resist_value = "1" then
    if has_desired_ancestor ca moo_concept_id 4214811 then "3009403"
    else rosetta "fenotipo_resistencia" "semantic_link" feno_resist_value
  else rosetta "fenotipo_resistencia" "semantic_link" feno_resist_value

/-! ### Drug-code translation (`OMOPLoader.get_rxnorm_from_atc`) and the
treatment-form callers -/

/-- The configured default concepts of `OMOPLoader.__init__`
(MepramETL.py:56-59). -/
def default_values_microorganismo : Nat := 4259632

/-- SNOMED-CT code of the default "antiinfective agent"
(MepramETL.py:58). -/
def default_values_antimicrobiano : Nat := 895275007

/-- Model of `get_rxnorm_from_atc` (MepramETL.py:639-657): exact lookup of
`atc_code` in the atc2rxnorm cross-reference (modelled as a list of
`(atc_code, conceptId)` rows); raises `ValueError` (modelled as
`Except.error`) when no row matches. -/
def get_rxnorm_from_atc (atc2rxnorm : List (String × String))
    (atc_code : String) : Except String String :=
  match atc2rxnorm.find? (fun p => p.1 = atc_code) with
  | some p => Except.ok p.2
  | none =>
    Except.error ("No matching RxNorm concept for ATC code: " ++ atc_code ++ ".")

/-- The `drug_concept_id` computation shared by
`process_form_tratamiento_empirico` (MepramETL.py:1473-1479) and
`process_form_tratamiento_antibiotico_previo` (MepramETL.py:1423-1429): if
the source ATC field is not null, translate it (an exception propagates and
aborts the record's transformation); if it is null, fall back to
`fetch_OMOP_concept_from_db("SNOMED", 895275007)`, abstracted as the lookup
function `fetchSnomed`. -/
def treatmentDrugConceptId (atc2rxnorm : List (String × String))
    (fetchSnomed : Nat → String) (atc : Option String) : Except String String :=
  match atc with
  | some code => get_rxnorm_from_atc atc2rxnorm code
  | none => Except.ok (fetchSnomed default_values_antimicrobiano)

/-- The drug-exposure write of the treatment-form processors, reduced to the
fields the claim is about. -/
structure DrugExposureRow where
  drug_concept_id : String
  drug_source_value : Option String
deriving DecidableEq, Repr

/-- The treatment-form transformation slice around the drug-exposure write
(MepramETL.py:1469-1487): the record's transformation succeeds with the
inserted row, or aborts with the translation error (caught only by the batch
loop of `main`). -/
def processTreatmentDrugExposure (atc2rxnorm : List (String × String))
    (fetchSnomed : Nat → String) (atc : Option String) :
    Except String DrugExposureRow :=
  match treatmentDrugConceptId atc2rxnorm fetchSnomed atc with
  | Except.ok c => Except.ok ⟨c, atc⟩
  | Except.error e => Except.error e

/-! ### Vital-signs threshold derivation
(`OMOPLoader.signos_insert_measurement_or_condition`) -/

/-- The write performed for a categorical vital-sign flag: a
condition_occurrence row or (for normal oxygen saturation only) an
observation row, carrying the categorical source value. -/
inductive SignosWrite where
  | condition (value : String)
  | observation (value : String)
deriving DecidableEq, Repr

/-- The derivation branch of `signos_insert_measurement_or_condition`
(MepramETL.py:161-224), entered when the paired continuous element was
processed and the categorical element is null: matches on the continuous
element's name, derives the categorical code ("0" normal, "1" abnormal or
abnormal-low, "2" abnormal-high) by the fixed thresholds, and writes a
Condition — except that a normal oxygen saturation (`saturacion_o2 > 94`,
derived "0") writes an Observation and returns (MepramETL.py:185-211).  A
name outside the five pairs matches no case and falls through to the
condition write with the element value still null (modelled as "").  -/
def signosDerive (element1_name : String) (element1_value : Int) : SignosWrite :=
  match element1_name with
  | "temperatura" =>
    .condition
      (if element1_value < 36 then "1"
       else if element1_value > 38 then "2" else "0")
  | "frec_cardiaca" => .condition (if element1_value > 90 then "1" else "0")
  | "frec_respiratoria" => .condition (if element1_value ≥ 22 then "1" else "0")
  | "tension_arterial" => .condition (if element1_value ≤ 100 then "1" else "0")
  | "saturacion_o2" =>
    if element1_value ≤ 94 then .condition "1" else .observation "0"
  | _ => .condition ""

/-- The guard of the derivation branch (MepramETL.py:161): the flag element
is null and the paired continuous element was processed; the other branches
of the method (explicit flag value, first element of the pair) are out of
this claim's scope and return `none` here. -/
def signosFlagBranch (element1_processed : Bool) (flagValue : Option String)
    (element1_name : String) (element1_value : Int) : Option SignosWrite :=
  if element1_processed = true && flagValue = none then
    some (signosDerive element1_name element1_value)
  else none

/-! ### Sepsis form: the "foco" fallback
(`OMOPLoader.process_form_sepsis` / `sepsis_insert_condition_or_measurement`) -/

/-- The writes of the `foco` branch of
`sepsis_insert_condition_or_measurement` (MepramETL.py:513-547), plus a
placeholder for every other element branch. -/
inductive SepsisWrite where
  | conditionFoco (concept : String) (source_value : String) (status : String)
  | episode (episode_concept_id : String)
  | episodeEvent (field_concept_id : String)
  | otherElement (name : String)
deriving DecidableEq, Repr

/-- The element-loop body of `process_form_sepsis` (MepramETL.py:963-979)
restricted to the routing relevant to the claim: a null `foco` value is
replaced by "12" before transformation, then non-null values are passed to
`sepsis_insert_condition_or_measurement`, whose `foco` branch writes the
Condition (with the concept resolved through the rosetta lookup for the
value), the Episode and the Episode Event.  Branches for the other element
names are collapsed into `otherElement`. -/
def processSepsisElement (rosetta : String → String → String → String)
    (element_name : String) (element_value : Option String) : List SepsisWrite :=
  let element_value1 :=
    if element_name = "foco" && element_value = none then some "12"
    else element_value
  match element_value1 with
  | none => []
  | some v =>
    if element_name = "foco" then
      [.conditionFoco (rosetta "foco" "semantic_link" v) v "32890",
       .episode "32533",
       .episodeEvent "1147129"]
    else [.otherElement element_name]

/-! ### Prior-infection form: the organism default
(`OMOPLoader.process_form_infecciones_previas`) -/

/-- The value bound to `observation_concept_id` for the organism
observation: the Python expression (MepramETL.py:1111-1119) yields a
one-element tuple wrapping the SNOMED lookup when
`microorganism_infec_prev` is present, and the plain integer default
4259632 when it is null. -/
inductive MooConcept where
  | tupleWrapped (c : Option String)
  | plain (c : Nat)
deriving DecidableEq, Repr

/-- The `moo_concept_id` computation of `process_form_infecciones_previas`
(MepramETL.py:1111-1119).  `fetchSnomed` abstracts
`fetch_OMOP_concept_from_db("SNOMED", ·)`, which may return a null
concept. -/
def mooConceptInfecPrev (fetchSnomed : String → Option String)
    (microorganism_infec_prev : Option String) : MooConcept :=
  match microorganism_infec_prev with
  | some s => .tupleWrapped (fetchSnomed s)
  | none => .plain default_values_microorganismo

/-- The organism observation row written at MepramETL.py:1121-1137, reduced
to the fields the claim is about. -/
structure OrganismObservationRow where
  observation_concept_id : MooConcept
  value_source_value : Option String
  obs_event_field_concept_id : String
deriving DecidableEq, Repr

/-- The organism-observation write of `process_form_infecciones_previas`
(MepramETL.py:1111-1137): always performed, with the concept computed by
`mooConceptInfecPrev`. -/
def infeccionesPreviasOrganismObservation (fetchSnomed : String → Option String)
    (microorganism_infec_prev : Option String) : OrganismObservationRow :=
  ⟨mooConceptInfecPrev fetchSnomed microorganism_infec_prev,
    microorganism_infec_prev, "1147140"⟩

/-! ## Theorems for the claims -/

/-- C3: every relationship created by the Relationship Builder inserts
exactly two fact_relationship rows, the forward row (domain_1, fact_1,
domain_2, fact_2) with the forward relationship concept and the mirrored row
(domain_2, fact_2, domain_1, fact_1) with the semantically inverse concept:
the emitted list is a concatenation of forward/mirror pairs for every
relationship kind, with two rows per linked pair of facts. -/
theorem claim3_relationship_builder_symmetric_pairs
    (pairs : List (Option Nat × Option Nat)) (c o : Option Nat) :
    (∀ rt, isMirroredPairList (populate_fact_relationship_table rt pairs c o) = true)
    ∧ (populate_fact_relationship_table .infectious_disease_episode pairs c o).length
        = 2 * pairs.length
    ∧ populate_fact_relationship_table .previous_infection pairs c o =
        [⟨.Condition, c, .Observation, o, .HasCausativeAgent⟩,
         mirrorRel ⟨.Condition, c, .Observation, o, .HasCausativeAgent⟩]
    ∧ (populate_fact_relationship_table .previous_infection pairs c o).length = 2
    ∧ populate_fact_relationship_table .previous_colonization pairs c o =
        [⟨.Observation, c, .Observation, o, .HasCausativeAgent⟩,
         mirrorRel ⟨.Observation, c, .Observation, o, .HasCausativeAgent⟩]
    ∧ (populate_fact_relationship_table .previous_colonization pairs c o).length = 2 := by
  have hep : ∀ ps : List (Option Nat × Option Nat),
      isMirroredPairList
        (populate_fact_relationship_table .infectious_disease_episode ps c o) = true := by
    intro ps
    induction ps with
    | nil => rfl
    | cons p t ih =>
      simp only [populate_fact_relationship_table, List.flatMap_cons,
        List.cons_append, List.nil_append] at ih ⊢
      simp only [isMirroredPairList, mirrorRel, inverseRel, ih,
        Bool.and_true, decide_eq_true_eq]
  have hlen : (populate_fact_relationship_table .infectious_disease_episode
      pairs c o).length = 2 * pairs.length := by
    induction pairs with
    | nil => rfl
    | cons p t ih =>
      simp only [populate_fact_relationship_table, List.flatMap_cons,
        List.length_append, List.length_cons, List.length_nil] at ih ⊢
      omega
  refine ⟨?_, hlen, rfl, rfl, rfl, rfl⟩
  intro rt
  cases rt with
  | infectious_disease_episode => exact hep pairs
  | previous_infection =>
    simp [populate_fact_relationship_table, isMirroredPairList, mirrorRel, inverseRel]
  | previous_colonization =>
    simp [populate_fact_relationship_table, isMirroredPairList, mirrorRel, inverseRel]

/-- C4 (code bug): at the concrete concept-ancestor table containing the
single edge (4302157, 4214811), the ancestor 4214811 is reachable from the
descendant 4302157 at depth 1 — the documented contract requires `True` —
yet `has_desired_ancestor` returns `False`, because the SQL yields the
string 'Yes' which the Python compares against 'True'. -/
theorem claim4_ancestor_test_false_at_reachable_input :
    reachableWithinDepth4 [(4302157, 4214811)] 4302157 4214811 = true
    ∧ has_desired_ancestor [(4302157, 4214811)] 4302157 4214811 = false := by
  decide

/-- C10: `has_desired_ancestor` returns False for every concept-ancestor
table and every pair of arguments (the query yields 'Yes' or 'No', never
'True'), so the phenotype choice of `process_form_hemocultivo` always takes
the rosetta lookup and the concept "3009403" is never selected. -/
theorem claim10_has_desired_ancestor_always_false
    (ca : List (Nat × Nat)) (d a moo : Nat)
    (rosetta : String → String → String → String) (v : String) :
    has_desired_ancestor ca d a = false
    ∧ (ancestorQueryResult ca = "Yes" ∨ ancestorQueryResult ca = "No")
    ∧ hemocultivoFenoConceptId ca moo rosetta v =
        rosetta "fenotipo_resistencia" "semantic_link" v := by
  have h1 : ∀ d2 a2 : Nat, has_desired_ancestor ca d2 a2 = false := by
    intro d2 a2
    by_cases h : 4214811 ∈ ancestorSearchRows ca <;>
      simp [has_desired_ancestor, ancestorQueryResult, h]
  refine ⟨h1 d a, ?_, ?_⟩
  · by_cases h : 4214811 ∈ ancestorSearchRows ca <;>
      simp [ancestorQueryResult, h]
  · simp [hemocultivoFenoConceptId, h1]

/-- C6 counterexample: with the categorical flag absent and a continuous
oxygen saturation of 93, the derivation branch writes a Condition (derived
categorical code "1", abnormal), not an Observation — refuting the claim
that saturation 93 is routed to an Observation rather than a Condition. -/
theorem claim6_counterexample_saturation_routing :
    signosFlagBranch true none "saturacion_o2" 93 = some (SignosWrite.condition "1") := by
  decide

/-- C6 amended: with the categorical flag absent and the continuous value
present, the fixed thresholds derive: temperature 37 ⇒ normal ("0"); 35 ⇒
abnormal-low ("1"); 39 ⇒ abnormal-high ("2"); heart rate 95 ⇒ abnormal;
respiratory rate 24 ⇒ abnormal; systolic pressure 95 ⇒ abnormal; oxygen
saturation 93 ⇒ abnormal written as a Condition; only a normal saturation
(above 94) is routed to an Observation rather than a Condition. -/
theorem claim6_amended_threshold_derivation :
    signosFlagBranch true none "temperatura" 37 = some (SignosWrite.condition "0")
    ∧ signosFlagBranch true none "temperatura" 35 = some (SignosWrite.condition "1")
    ∧ signosFlagBranch true none "temperatura" 39 = some (SignosWrite.condition "2")
    ∧ signosFlagBranch true none "frec_cardiaca" 95 = some (SignosWrite.condition "1")
    ∧ signosFlagBranch true none "frec_respiratoria" 24 = some (SignosWrite.condition "1")
    ∧ signosFlagBranch true none "tension_arterial" 95 = some (SignosWrite.condition "1")
    ∧ signosFlagBranch true none "saturacion_o2" 93 = some (SignosWrite.condition "1")
    ∧ signosFlagBranch true none "saturacion_o2" 95 = some (SignosWrite.observation "0") := by
  decide

/-- C5 counterexample: with an empty atc2rxnorm cross-reference and a
present ATC code, the treatment-form transformation aborts with the
MissingMapping error instead of falling back to the default "antiinfective
agent" concept — refuting the claim that the caller falls back on a failed
translation. -/
theorem claim5_counterexample_missing_mapping_aborts :
    processTreatmentDrugExposure [] (fun n => toString n) (some "J01CA04") =
      Except.error "No matching RxNorm concept for ATC code: J01CA04." := rfl

/-- C5 amended: the configured default "antiinfective agent" concept
(SNOMED 895275007) is used only when the source ATC code field is null;
when the code is present but has no cross-reference row, the translation
fails with the MissingMapping error and the record's transformation aborts
(the error is caught only by the batch loop). -/
theorem claim5_amended_drug_code_translation
    (atc2rxnorm : List (String × String)) (fetchSnomed : Nat → String) :
    processTreatmentDrugExposure atc2rxnorm fetchSnomed none =
      Except.ok ⟨fetchSnomed 895275007, none⟩
    ∧ ∀ code, atc2rxnorm.find? (fun p => p.1 = code) = none →
        processTreatmentDrugExposure atc2rxnorm fetchSnomed (some code) =
          Except.error ("No matching RxNorm concept for ATC code: " ++ code ++ ".") := by
  constructor
  · rfl
  · intro code h
    simp [processTreatmentDrugExposure, treatmentDrugConceptId,
      get_rxnorm_from_atc, h]

/-- C5 amended, witness: concrete instance of the missing-row hypothesis. -/
theorem claim5_amended_drug_code_translation_witness :
    ([] : List (String × String)).find? (fun p => p.1 = "J01") = none
    ∧ processTreatmentDrugExposure [] (fun n => toString n) (some "J01") =
        Except.error ("No matching RxNorm concept for ATC code: " ++ "J01" ++ ".") :=
  ⟨rfl, (claim5_amended_drug_code_translation [] (fun n => toString n)).2 "J01" rfl⟩

/-- C8: a null "foco" (focus of infection) value of a sepsis record is
replaced by the fallback code "12" before transformation, and a Condition
row is written with the concept resolved for "12" (plus the Episode and
Episode Event of the foco branch). -/
theorem claim8_foco_null_defaults_to_12
    (rosetta : String → String → String → String) :
    processSepsisElement rosetta "foco" none =
      [SepsisWrite.conditionFoco (rosetta "foco" "semantic_link" "12") "12" "32890",
       SepsisWrite.episode "32533", SepsisWrite.episodeEvent "1147129"] := by
  simp [processSepsisElement]

/-- C9: a prior-infection record with a null organism field writes the
organism Observation with the configured default "organism" concept 4259632
(the plain integer default, not a SNOMED lookup), unconditionally. -/
theorem claim9_null_organism_default_observation
    (fetchSnomed : String → Option String) :
    infeccionesPreviasOrganismObservation fetchSnomed none =
      ⟨MooConcept.plain default_values_microorganismo, none, "1147140"⟩
    ∧ MooConcept.plain default_values_microorganismo = MooConcept.plain 4259632 :=
  ⟨rfl, rfl⟩

/-! ### Lemmas about the batch-loop model -/

theorem recordTransition_current (st : LoopState) (rid : String) :
    (recordTransition st rid).current = some rid := by
  unfold recordTransition writeTracking
  cases hc : st.current with
  | none => rfl
  | some c =>
    by_cases h : c = rid
    · simp [h, hc]
    · by_cases hp : st.processed = true <;> simp [h, hp]

theorem recordTransition_invoked (st : LoopState) (rid : String) :
    (recordTransition st rid).invoked = st.invoked := by
  unfold recordTransition writeTracking
  cases st.current with
  | none => rfl
  | some c =>
    by_cases h : c = rid
    · simp [h]
    · by_cases hp : st.processed = true <;> simp [h, hp]

theorem recordTransition_errors (st : LoopState) (rid : String) :
    (recordTransition st rid).errors = st.errors := by
  unfold recordTransition writeTracking
  cases st.current with
  | none => rfl
  | some c =>
    by_cases h : c = rid
    · simp [h]
    · by_cases hp : st.processed = true <;> simp [h, hp]

theorem recordTransition_tracking_sub (st : LoopState) (rid s : String)
    (h : s ∈ st.tracking) : s ∈ (recordTransition st rid).tracking := by
  unfold recordTransition writeTracking
  cases st.current with
  | none => simpa using h
  | some c =>
    by_cases hcr : c = rid
    · simpa [hcr] using h
    · by_cases hp : st.processed = true <;> simp [hcr, hp, h]

theorem recordTransition_tracking_cases (st : LoopState) (rid s : String)
    (h : s ∈ (recordTransition st rid).tracking) :
    s ∈ st.tracking ∨ (st.current = some s ∧ st.processed = true) := by
  unfold recordTransition writeTracking at h
  cases hc : st.current with
  | none => rw [hc] at h; exact Or.inl h
  | some c =>
    rw [hc] at h
    by_cases hcr : c = rid
    · simp [hcr] at h
      exact Or.inl h
    · by_cases hp : st.processed = true
      · simp [hcr, hp] at h
        rcases h with h1 | h1
        · exact Or.inl h1
        · subst h1; exact Or.inr ⟨rfl, hp⟩
      · simp [hcr, hp] at h
        exact Or.inl h

theorem recordTransition_written_cases (st : LoopState) (rid s : String)
    (h : s ∈ (recordTransition st rid).written) :
    s ∈ st.written ∨ (st.current = some s ∧ st.processed = true) := by
  unfold recordTransition writeTracking at h
  cases hc : st.current with
  | none => rw [hc] at h; exact Or.inl h
  | some c =>
    rw [hc] at h
    by_cases hcr : c = rid
    · simp [hcr] at h
      exact Or.inl h
    · by_cases hp : st.processed = true
      · simp [hcr, hp] at h
        rcases h with h1 | h1
        · exact Or.inl h1
        · subst h1; exact Or.inr ⟨rfl, hp⟩
      · simp [hcr, hp] at h
        exact Or.inl h

theorem recordTransition_processed (st : LoopState) (rid : String)
    (h : (recordTransition st rid).processed = true) :
    st.current = some rid ∧ st.processed = true := by
  unfold recordTransition writeTracking at h
  cases hc : st.current with
  | none => rw [hc] at h; simp at h
  | some c =>
    rw [hc] at h
    by_cases hcr : c = rid
    · simp [hcr] at h
      exact ⟨by rw [hcr], h⟩
    · by_cases hp : st.processed = true <;> simp [hcr, hp] at h

theorem attemptLoad_tracking (st : LoopState) (r : SRow) :
    (attemptLoad st r).tracking = st.tracking := by
  unfold attemptLoad
  split
  · rfl
  · split <;> rfl

theorem attemptLoad_written (st : LoopState) (r : SRow) :
    (attemptLoad st r).written = st.written := by
  unfold attemptLoad
  split
  · rfl
  · split <;> rfl

theorem attemptLoad_current (st : LoopState) (r : SRow) :
    (attemptLoad st r).current = st.current := by
  unfold attemptLoad
  split
  · rfl
  · split <;> rfl

theorem attemptLoad_processed (st : LoopState) (r : SRow)
    (h : (attemptLoad st r).processed = true) :
    st.processed = true ∨ r.loadOk = true := by
  unfold attemptLoad at h
  split at h
  · exact Or.inl h
  · split at h
    · exact Or.inr (by assumption)
    · exact Or.inl h

theorem attemptLoad_invoked_cases (st : LoopState) (r : SRow) (s : String)
    (h : s ∈ (attemptLoad st r).invoked) :
    s ∈ st.invoked ∨ (s = r.record_id ∧ r.record_id ∉ st.tracking) := by
  unfold attemptLoad at h
  split at h
  · exact Or.inl h
  · rename_i hnm
    split at h <;> simp at h <;>
      rcases h with h1 | h1
    · exact Or.inl h1
    · exact Or.inr ⟨h1, hnm⟩
    · exact Or.inl h1
    · exact Or.inr ⟨h1, hnm⟩

theorem attemptLoad_errors_cases (st : LoopState) (r : SRow) (s : String)
    (h : s ∈ (attemptLoad st r).errors) :
    s ∈ st.errors ∨ s = r.record_id := by
  unfold attemptLoad at h
  split at h
  · exact Or.inl h
  · split at h
    · exact Or.inl h
    · simp at h
      rcases h with h1 | h1
      · exact Or.inl h1
      · exact Or.inr h1

theorem attemptLoad_errors_sub (st : LoopState) (r : SRow) (s : String)
    (h : s ∈ st.errors) : s ∈ (attemptLoad st r).errors := by
  unfold attemptLoad
  split
  · exact h
  · split
    · exact h
    · simp [h]

theorem stepRow_tracking_sub (st : LoopState) (r : SRow) (s : String)
    (h : s ∈ st.tracking) : s ∈ (stepRow st r).tracking := by
  unfold stepRow
  split
  · exact h
  · rw [attemptLoad_tracking]
    exact recordTransition_tracking_sub st r.record_id s h

theorem stepRow_errors_sub (st : LoopState) (r : SRow) (s : String)
    (h : s ∈ st.errors) : s ∈ (stepRow st r).errors := by
  unfold stepRow
  split
  · exact h
  · exact attemptLoad_errors_sub _ r s (by rw [recordTransition_errors]; exact h)

theorem finalizeRun_invoked (st : LoopState) :
    (finalizeRun st).invoked = st.invoked := by
  unfold finalizeRun writeTracking
  cases st.current with
  | none => rfl
  | some c => by_cases hp : st.processed = true <;> simp [hp]

theorem finalizeRun_errors (st : LoopState) :
    (finalizeRun st).errors = st.errors := by
  unfold finalizeRun writeTracking
  cases st.current with
  | none => rfl
  | some c => by_cases hp : st.processed = true <;> simp [hp]

theorem finalizeRun_written_cases (st : LoopState) (s : String)
    (h : s ∈ (finalizeRun st).written) :
    s ∈ st.written ∨ (st.current = some s ∧ st.processed = true) := by
  unfold finalizeRun writeTracking at h
  cases hc : st.current with
  | none => rw [hc] at h; exact Or.inl h
  | some c =>
    rw [hc] at h
    by_cases hp : st.processed = true
    · simp [hp] at h
      rcases h with h1 | h1
      · exact Or.inl h1
      · subst h1; exact Or.inr ⟨rfl, hp⟩
    · simp [hp] at h
      exact Or.inl h

/-- One-step preservation of the C1 invariant: a subject with a tracking row
keeps it and is never passed to `load_data`. -/
theorem c1_step (st : LoopState) (r : SRow) (s : String)
    (h1 : s ∈ st.tracking) (h2 : s ∉ st.invoked) :
    s ∈ (stepRow st r).tracking ∧ s ∉ (stepRow st r).invoked := by
  refine ⟨stepRow_tracking_sub st r s h1, ?_⟩
  intro hmem
  unfold stepRow at hmem
  split at hmem
  · exact h2 hmem
  · rcases attemptLoad_invoked_cases _ r s hmem with hin | ⟨heq, hnt⟩
    · rw [recordTransition_invoked] at hin
      exact h2 hin
    · exact hnt (heq ▸ recordTransition_tracking_sub st r.record_id s h1)

theorem c1_foldl (rows : List SRow) (st : LoopState) (s : String)
    (h1 : s ∈ st.tracking) (h2 : s ∉ st.invoked) :
    s ∈ (rows.foldl stepRow st).tracking ∧ s ∉ (rows.foldl stepRow st).invoked := by
  induction rows generalizing st with
  | nil => exact ⟨h1, h2⟩
  | cons r t ih =>
    rw [List.foldl_cons]
    obtain ⟨h1s, h2s⟩ := c1_step st r s h1 h2
    exact ih (stepRow st r) h1s h2s

/-- C1: for every (subject, form) pair already present in the ETL tracking
table at the start of a run, the batch loop of `main` never invokes
`load_data` for that subject in that form's pass: the `is_form_processed`
check skips the record. -/
theorem claim1_processed_pair_never_retransformed
    (t0 : List String) (rows : List SRow) (s : String) (h : s ∈ t0) :
    s ∉ (runFormBatch t0 rows).invoked := by
  unfold runFormBatch
  rw [finalizeRun_invoked]
  exact (c1_foldl rows (initState t0) s h (by simp [initState])).2

/-- C1 witness: with subject "A" already tracked, a run over records for
"A" and "B" never invokes the transformation for "A". -/
theorem claim1_processed_pair_never_retransformed_witness :
    "A" ∈ (["A"] : List String)
    ∧ "A" ∉ (runFormBatch ["A"]
        [⟨"A", false, true⟩, ⟨"B", false, true⟩]).invoked :=
  ⟨by decide,
   claim1_processed_pair_never_retransformed ["A"]
     [⟨"A", false, true⟩, ⟨"B", false, true⟩] "A" (by decide)⟩

/-! ### Failure isolation in the batch loop (claim C7) -/

/-- Invariant carried by the loop for a subject `s` none of whose rows load
successfully: `s` has no tracking row, no tracking write happened for `s`,
and whenever `s` is the current record the `processed` flag is down. -/
def failInv (s : String) (st : LoopState) : Prop :=
  s ∉ st.tracking ∧ s ∉ st.written ∧ (st.current = some s → st.processed = false)

theorem failInv_step (s : String) (st : LoopState) (r : SRow)
    (hr : r.record_id = s → r.loadOk = false) (h : failInv s st) :
    failInv s (stepRow st r) := by
  obtain ⟨h1, h2, h3⟩ := h
  unfold stepRow
  split
  · exact ⟨h1, h2, h3⟩
  · set st1 := recordTransition st r.record_id with hst1
    have ht1 : s ∉ st1.tracking := by
      intro hmem
      rcases recordTransition_tracking_cases st r.record_id s hmem with hin | ⟨hcur, hp⟩
      · exact h1 hin
      · rw [h3 hcur] at hp; exact Bool.false_ne_true hp
    have hw1 : s ∉ st1.written := by
      intro hmem
      rcases recordTransition_written_cases st r.record_id s hmem with hin | ⟨hcur, hp⟩
      · exact h2 hin
      · rw [h3 hcur] at hp; exact Bool.false_ne_true hp
    refine ⟨?_, ?_, ?_⟩
    · rw [attemptLoad_tracking]; exact ht1
    · rw [attemptLoad_written]; exact hw1
    · intro hcur
      rw [attemptLoad_current, recordTransition_current] at hcur
      have hrid : r.record_id = s := by injection hcur
      by_contra hne
      have hp : (attemptLoad st1 r).processed = true := by
        cases hb : (attemptLoad st1 r).processed
        · exact absurd hb hne
        · rfl
      rcases attemptLoad_processed st1 r hp with hp1 | hp1
      · rcases recordTransition_processed st r.record_id hp1 with ⟨hcur0, hp0⟩
        rw [hrid] at hcur0
        rw [h3 hcur0] at hp0
        exact Bool.false_ne_true hp0
      · rw [hr hrid] at hp1
        exact Bool.false_ne_true hp1

theorem failInv_foldl (s : String) (rows : List SRow) (st : LoopState)
    (hall : ∀ r ∈ rows, r.record_id = s → r.loadOk = false)
    (h : failInv s st) : failInv s (rows.foldl stepRow st) := by
  induction rows generalizing st with
  | nil => exact h
  | cons r t ih =>
    rw [List.foldl_cons]
    exact ih (stepRow st r) (fun r2 hr2 => hall r2 (List.mem_cons_of_mem r hr2))
      (failInv_step s st r (hall r (List.mem_cons_self r t)) h)

theorem errors_foldl_sub (s : String) (rows : List SRow) (st : LoopState)
    (h : s ∈ st.errors) : s ∈ (rows.foldl stepRow st).errors := by
  induction rows generalizing st with
  | nil => exact h
  | cons r t ih =>
    rw [List.foldl_cons]
    exact ih (stepRow st r) (stepRow_errors_sub st r s h)

/-- A failing, non-skipped row whose subject has no tracking row gets its
error logged by its own iteration. -/
theorem failing_row_logged (st : LoopState) (f : SRow)
    (hE : f.isEmpty = false) (hF : f.loadOk = false)
    (h1 : f.record_id ∉ st.tracking)
    (h3 : st.current = some f.record_id → st.processed = false) :
    f.record_id ∈ (stepRow st f).errors := by
  unfold stepRow
  simp only [hE, Bool.false_eq_true, if_false]
  have ht1 : f.record_id ∉ (recordTransition st f.record_id).tracking := by
    intro hmem
    rcases recordTransition_tracking_cases st f.record_id _ hmem with hin | ⟨hcur, hp⟩
    · exact h1 hin
    · rw [h3 hcur] at hp; exact Bool.false_ne_true hp
  unfold attemptLoad
  rw [if_neg ht1]
  simp [hF]

/-- C7 counterexample: in a batch where subject "A" has one record that
loads successfully and a second record that raises, the `processed` flag
survives the failure, so a tracking row for ("A", form) is written even
though A's second record's transformation raised — refuting the claim that
no ETL tracking row is written for a (subject, form) pair whose record
failed. -/
theorem claim7_counterexample_tracking_written_despite_failure :
    (runFormBatch []
        [⟨"A", false, true⟩, ⟨"A", false, false⟩, ⟨"B", false, true⟩]).errors = ["A"]
    ∧ (runFormBatch []
        [⟨"A", false, true⟩, ⟨"A", false, false⟩, ⟨"B", false, true⟩]).written
      = ["A", "B"] := by
  decide

/-- C7 amended: if a record's transformation raises, the error is logged,
that record is skipped, and the loop proceeds to the remaining records (the
run over the whole batch equals the continuation from the post-failure
state); no ETL tracking row is written for that (subject, form) pair
provided no record with the same subject id in the same form's batch is
transformed successfully (with other same-subject records succeeding, the
surviving `processed` flag can still produce a tracking row — see the
counterexample). -/
theorem claim7_amended_failure_isolated
    (t0 : List String) (rows1 rows2 : List SRow) (f : SRow)
    (hE : f.isEmpty = false) (hF : f.loadOk = false)
    (h0 : f.record_id ∉ t0)
    (hall : ∀ r ∈ rows1 ++ f :: rows2, r.record_id = f.record_id → r.loadOk = false) :
    f.record_id ∉ (runFormBatch t0 (rows1 ++ f :: rows2)).written
    ∧ f.record_id ∈ (runFormBatch t0 (rows1 ++ f :: rows2)).errors
    ∧ runFormBatch t0 (rows1 ++ f :: rows2)
        = finalizeRun (rows2.foldl stepRow
            (stepRow (rows1.foldl stepRow (initState t0)) f)) := by
  have hsplit : runFormBatch t0 (rows1 ++ f :: rows2)
      = finalizeRun (rows2.foldl stepRow
          (stepRow (rows1.foldl stepRow (initState t0)) f)) := by
    unfold runFormBatch
    rw [List.foldl_append, List.foldl_cons]
  have hall1 : ∀ r ∈ rows1, r.record_id = f.record_id → r.loadOk = false :=
    fun r hr => hall r (List.mem_append_left _ hr)
  have hall2 : ∀ r ∈ rows2, r.record_id = f.record_id → r.loadOk = false :=
    fun r hr => hall r (List.mem_append_right _ (List.mem_cons_of_mem f hr))
  have hinv0 : failInv f.record_id (initState t0) := by
    refine ⟨h0, by simp [initState], by simp [initState]⟩
  have hinv1 : failInv f.record_id (rows1.foldl stepRow (initState t0)) :=
    failInv_foldl _ rows1 _ hall1 hinv0
  have hinvf : failInv f.record_id
      (stepRow (rows1.foldl stepRow (initState t0)) f) :=
    failInv_step _ _ f
      (hall f (List.mem_append_right _ (List.mem_cons_self f rows2))) hinv1
  have hinv2 : failInv f.record_id
      (rows2.foldl stepRow (stepRow (rows1.foldl stepRow (initState t0)) f)) :=
    failInv_foldl _ rows2 _ hall2 hinvf
  have herrf : f.record_id ∈ (stepRow (rows1.foldl stepRow (initState t0)) f).errors :=
    failing_row_logged _ f hE hF hinv1.1 hinv1.2.2
  refine ⟨?_, ?_, hsplit⟩
  · rw [hsplit]
    intro hmem
    rcases finalizeRun_written_cases _ _ hmem with hin | ⟨hcur, hp⟩
    · exact hinv2.2.1 hin
    · rw [hinv2.2.2 hcur] at hp
      exact Bool.false_ne_true hp
  · rw [hsplit, finalizeRun_errors]
    exact errors_foldl_sub _ rows2 _ herrf

/-- C7 amended, witness: a concrete batch where subject "C" fails between
successful subjects "A" and "B". -/
theorem claim7_amended_failure_isolated_witness :
    "C" ∉ (runFormBatch []
        ([⟨"A", false, true⟩] ++ ⟨"C", false, false⟩ :: [⟨"B", false, true⟩])).written
    ∧ "C" ∈ (runFormBatch []
        ([⟨"A", false, true⟩] ++ ⟨"C", false, false⟩ :: [⟨"B", false, true⟩])).errors :=
  ⟨(claim7_amended_failure_isolated [] [⟨"A", false, true⟩] [⟨"B", false, true⟩]
      ⟨"C", false, false⟩ rfl rfl (by decide) (by decide)).1,
   (claim7_amended_failure_isolated [] [⟨"A", false, true⟩] [⟨"B", false, true⟩]
      ⟨"C", false, false⟩ rfl rfl (by decide) (by decide)).2.1⟩

/-! ### Lemmas about the identity registry (claim C2) -/

/-- Well-formedness of the person_origin table as produced from an empty
table: the assigned person ids are 1, 2, ..., n in insertion order. -/
def WFreg (reg : List (String × Nat)) : Prop :=
  reg.map Prod.snd = List.range' 1 reg.length

theorem is_person_in_db_iff (reg : List (String × Nat)) (src : String) :
    is_person_in_db reg src = true ↔ src ∈ reg.map Prod.fst := by
  simp [is_person_in_db, List.any_eq_true, List.mem_map]

theorem foldl_max_range' (n : Nat) :
    List.foldl Nat.max 0 (List.range' 1 n) = n := by
  induction n with
  | zero => rfl
  | succ k ih =>
    rw [List.range'_1_concat, List.foldl_append, ih]
    simp [Nat.max_def]
    omega

theorem maxPersonId_of_WF (reg : List (String × Nat)) (hw : WFreg reg) :
    maxPersonId reg = if reg.isEmpty then none else some reg.length := by
  unfold maxPersonId
  by_cases he : reg.isEmpty
  · simp [he]
  · simp only [he, if_false]
    congr 1
    have : List.foldl (fun m p => Nat.max m p.2) 0 reg
        = List.foldl Nat.max 0 (reg.map Prod.snd) := by
      rw [List.foldl_map]
    rw [this, hw, foldl_max_range']

theorem populate_seen (reg : List (String × Nat)) (src : String)
    (h : src ∈ reg.map Prod.fst) :
    populate_person_origin_table reg src = (reg, getPersonId reg src) := by
  unfold populate_person_origin_table
  rw [if_pos]
  exact (is_person_in_db_iff reg src).mpr h

theorem populate_new (reg : List (String × Nat)) (src : String)
    (h : src ∉ reg.map Prod.fst) (hw : WFreg reg) :
    populate_person_origin_table reg src
      = (reg ++ [(src, reg.length + 1)], reg.length + 1) := by
  unfold populate_person_origin_table
  rw [if_neg (fun hc => h ((is_person_in_db_iff reg src).mp hc))]
  rw [maxPersonId_of_WF reg hw]
  by_cases he : reg.isEmpty
  · have hlen : reg.length = 0 := by
      cases reg
      · rfl
      · simp [List.isEmpty] at he
    simp [he, hlen]
  · have hlen : reg.length ≠ 0 := by
      cases reg
      · simp [List.isEmpty] at he
      · simp
    simp only [he, if_false]
    simp [hlen]

theorem WFreg_append (reg : List (String × Nat)) (src : String)
    (hw : WFreg reg) : WFreg (reg ++ [(src, reg.length + 1)]) := by
  unfold WFreg at hw ⊢
  rw [List.map_append, hw, List.length_append]
  simp [List.range'_1_concat, Nat.add_comm]

theorem registry_run_aux (srcs : List String) :
    ∀ reg : List (String × Nat), WFreg reg →
      WFreg (runRegistry reg srcs)
      ∧ (runRegistry reg srcs).map Prod.fst = firstSeen (reg.map Prod.fst) srcs := by
  induction srcs with
  | nil => intro reg hw; exact ⟨hw, rfl⟩
  | cons src t ih =>
    intro reg hw
    have hrun : runRegistry reg (src :: t)
        = runRegistry (populate_person_origin_table reg src).1 t := by
      unfold runRegistry
      rw [List.foldl_cons]
    have hfs : firstSeen (reg.map Prod.fst) (src :: t)
        = firstSeen (if src ∈ reg.map Prod.fst then reg.map Prod.fst
            else reg.map Prod.fst ++ [src]) t := by
      unfold firstSeen
      rw [List.foldl_cons]
    by_cases hmem : src ∈ reg.map Prod.fst
    · rw [hrun, populate_seen reg src hmem]
      rw [hfs, if_pos hmem]
      exact ih reg hw
    · rw [hrun, populate_new reg src hmem hw]
      rw [hfs, if_neg hmem]
      have hmap : (reg ++ [(src, reg.length + 1)]).map Prod.fst
          = reg.map Prod.fst ++ [src] := by
        simp
      have := ih (reg ++ [(src, reg.length + 1)]) (WFreg_append reg src hw)
      rw [hmap] at this
      exact this

theorem getPersonId_firstIndex (src : String) :
    ∀ (reg : List (String × Nat)) (k : Nat),
      reg.map Prod.snd = List.range' (k + 1) reg.length →
      src ∈ reg.map Prod.fst →
      getPersonId reg src = k + 1 + firstIndex src (reg.map Prod.fst) := by
  intro reg
  induction reg with
  | nil => intro k _ hmem; simp at hmem
  | cons p t ih =>
    intro k hsnd hmem
    rw [List.map_cons, List.length_cons, List.range'_succ] at hsnd
    have hp2 : p.2 = k + 1 := (List.cons.injEq _ _ _ _ ▸ hsnd).1
    have ht : t.map Prod.snd = List.range' (k + 1 + 1) t.length :=
      (List.cons.injEq _ _ _ _ ▸ hsnd).2
    by_cases hps : p.1 = src
    · unfold getPersonId
      rw [List.find?_cons_of_pos _ (by simp [hps])]
      simp [hp2, List.map_cons, firstIndex, hps]
    · have hmem2 : src ∈ t.map Prod.fst := by
        rcases List.mem_cons.mp (List.map_cons Prod.fst p t ▸ hmem) with h1 | h1
        · exact absurd h1.symm hps
        · exact h1
      have hrec := ih (k + 1) ht hmem2
      unfold getPersonId at hrec ⊢
      rw [List.find?_cons_of_neg _ (by simp [hps])]
      rw [hrec, List.map_cons]
      simp only [firstIndex, hps, if_false]
      omega

/-- C2: from an empty person_origin registry, `populate_person_origin_table`
assigns the n-th distinct source subject id the synthetic id n (first new
subject gets 1, each later new subject current-maximum-plus-one, which under
the run invariant is the next integer), and every repeated call with an
already-seen source id returns the previously assigned synthetic id and
leaves the registry unchanged. -/
theorem claim2_identity_registry_allocation (srcs : List String) :
    ((runRegistry [] srcs).map Prod.fst = firstSeen [] srcs
      ∧ (runRegistry [] srcs).map Prod.snd
          = List.range' 1 (runRegistry [] srcs).length)
    ∧ ∀ src, src ∈ (runRegistry [] srcs).map Prod.fst →
        populate_person_origin_table (runRegistry [] srcs) src
          = (runRegistry [] srcs, 1 + firstIndex src (firstSeen [] srcs)) := by
  have hw0 : WFreg ([] : List (String × Nat)) := rfl
  obtain ⟨hw, hfst⟩ := registry_run_aux srcs [] hw0
  refine ⟨⟨hfst, hw⟩, ?_⟩
  intro src hmem
  rw [populate_seen _ src hmem]
  have hid := getPersonId_firstIndex src (runRegistry [] srcs) 0 hw hmem
  rw [hid, hfst]
  simp [Nat.add_comm]

/-- C2 witness: the batch ["a", "b", "a"] allocates 1 to "a", 2 to "b", and
re-resolving "a" returns 1 without inserting. -/
theorem claim2_identity_registry_allocation_witness :
    "a" ∈ (runRegistry [] ["a", "b", "a"]).map Prod.fst
    ∧ populate_person_origin_table (runRegistry [] ["a", "b", "a"]) "a"
        = (runRegistry [] ["a", "b", "a"],
            1 + firstIndex "a" (firstSeen [] ["a", "b", "a"])) :=
  ⟨by decide,
   (claim2_identity_registry_allocation ["a", "b", "a"]).2 "a" (by decide)⟩

end OMOPerations
